import Mathlib

/-!
Verification development for the car-business-RPA report-distribution utility.

The definitions below are a shallow embedding of the delivery orchestration
code in `src/utils/whatsapp_sender.py` and the image-upload helpers in
`src/utils/image_uploader.py`.  Effects (Twilio calls, `time.sleep`, file
writes, HTTP uploads) are made explicit: a transport is a function from the
attempt index to its outcome, and each operation returns a trace recording
the number of attempts, the number of waits, the simulation message written,
and the upload attempts performed.
-/

namespace CarBiz

/-- Python truthiness of an optional string: `None` and `""` are falsy. -/
def pyTruthy : Option String → Bool
  | some s => s != ""
  | none => false

/-- Outcome of one call to `send_twilio_message` as observed by the retry
loop in `send_message`: the call returns `True`, returns `False`, raises a
generic exception, or raises `TwilioDailyLimitExceeded`. -/
inductive AttemptOutcome
  | success
  | returnsFalse
  | raisesOther
  | raisesRateLimit
deriving Repr, DecidableEq

/-- Result of `send_message`: a boolean return, or the re-raised
`TwilioDailyLimitExceeded` signal. -/
inductive SendResult
  | ok (b : Bool)
  | rateLimited
deriving Repr, DecidableEq

/-- Trace of one `send_message` call: its result, the number of transport
attempts performed, and the number of `time.sleep(wait_time)` calls. -/
structure SendTrace where
  result : SendResult
  attempts : Nat
  waits : Nat
deriving Repr, DecidableEq

/-- The retry loop of `WhatsAppSender.send_message`
(`for attempt in range(max_retries): ...`), embedded by recursion on the
number of attempts left; `idx` is the 0-based index of the next attempt.
A success returns `True` at once; a rate-limit signal is re-raised at once;
a `False` return or a generic exception sleeps `wait_time` seconds when the
attempt is not the last (`attempt < max_retries - 1`) and continues. -/
def sendLoop (transport : Nat → AttemptOutcome) : Nat → Nat → SendTrace
  | 0, _ => ⟨.ok false, 0, 0⟩
  | rem + 1, idx =>
    match transport idx with
    | .success => ⟨.ok true, 1, 0⟩
    | .raisesRateLimit => ⟨.rateLimited, 1, 0⟩
    | .returnsFalse =>
      let rest := sendLoop transport rem (idx + 1)
      ⟨rest.result, rest.attempts + 1, rest.waits + (if 0 < rem then 1 else 0)⟩
    | .raisesOther =>
      let rest := sendLoop transport rem (idx + 1)
      ⟨rest.result, rest.attempts + 1, rest.waits + (if 0 < rem then 1 else 0)⟩

/-- The configuration snapshot loaded by `_load_config` (the fields the
orchestration logic reads). -/
structure Config where
  destination_whatsapp : String
  max_retries : Nat
  wait_time : Nat
  simulate : Bool

/-- `if not destiny: destiny = self.config['destination_whatsapp']`: an
absent or empty destination argument falls back to the configured
default. -/
def resolveDestiny (cfg : Config) (destiny : Option String) : String :=
  match destiny with
  | none => cfg.destination_whatsapp
  | some s => if s = "" then cfg.destination_whatsapp else s

/-- `if simulate is None: simulate = bool(self.config.get('simulate'))`:
the explicit argument overrides the configured default. -/
def resolveSimulate (cfg : Config) (simulateArg : Option Bool) : Bool :=
  match simulateArg with
  | none => cfg.simulate
  | some b => b

/-- `WhatsAppSender.send_message`: resolve the destination (an absent or
empty argument falls back to the configured default; an empty resolution
returns `False` with no attempt), then run the retry loop with
`max_retries` attempts when `retry` is true and a single attempt
otherwise. -/
def send_message (cfg : Config) (transport : Nat → AttemptOutcome)
    (destiny : Option String) (retry : Bool) : SendTrace :=
  if resolveDestiny cfg destiny = "" then ⟨.ok false, 0, 0⟩
  else sendLoop transport (if retry then cfg.max_retries else 1) 0

/-- The error classification of one Twilio API call inside
`send_twilio_message`: the message was created and its fetched status is
`status`; or Twilio raised a `TwilioRestException` carrying `code` and
`text`; or some other exception was raised. -/
inductive TwilioCallResult
  | created (status : String)
  | restError (code : Option Int) (text : String)
  | otherError
deriving Repr

/-- `'daily messages limit' in str(e).lower()`. -/
def containsDailyMarker (text : String) : Bool :=
  (text.toLower.splitOn "daily messages limit").length != 1

/-- `WhatsAppSender.send_twilio_message` viewed from the retry loop: an
uninitialized client returns `False`; a created message succeeds when its
status is queued, sent or delivered; a `TwilioRestException` with code
63038 or the daily-limit marker in its text raises
`TwilioDailyLimitExceeded`, any other `TwilioRestException` or exception
returns `False` (the generic `except` clauses return `False`). -/
def classifyTwilio (clientInit : Bool) (call : TwilioCallResult) : AttemptOutcome :=
  if !clientInit then .returnsFalse
  else match call with
    | .created status =>
      if status = "queued" ∨ status = "sent" ∨ status = "delivered" then .success
      else .returnsFalse
    | .restError code text =>
      if code = some 63038 ∨ containsDailyMarker text then .raisesRateLimit
      else .returnsFalse
    | .otherError => .returnsFalse

/-- A transport attempt that fails generically: the call returned `False`
or raised a non-rate-limit exception. -/
def genericFail (o : AttemptOutcome) : Prop :=
  o = .returnsFalse ∨ o = .raisesOther

/-! Image uploader, from `src/utils/image_uploader.py`. -/

/-- The `data` object of the imgbb JSON response: the nested `image.url`
field (absent when `data.image` is missing or not a dict), `display_url`
and `url`. `none` at the outer level stands for a response whose `data`
member is absent or not a dict. -/
structure ImgbbData where
  image_url : Option String
  display_url : Option String
  url : Option String
deriving Repr

/-- Behaviour of the HTTP POST in `upload_image_to_imgbb`: the call (or the
preceding file read) raises, or it returns a response with a status code,
body text, and parsed `data` object. -/
inductive HttpResult
  | raises (msg : String)
  | response (status : Nat) (text : String) (data : Option ImgbbData)
deriving Repr

/-- Environment of a single `upload_image_to_imgbb` call: whether
`os.path.isfile(image_path)` holds, and what the HTTP POST does. -/
structure UploadEnv where
  fileExists : Bool
  http : HttpResult

/-- The `direct` URL computation of `upload_image_to_imgbb`: prefer
`data.image.url` when truthy, else `data.display_url or data.url`. -/
def priorityUrl (d : ImgbbData) : Option String :=
  if pyTruthy d.image_url then d.image_url
  else if pyTruthy d.display_url then d.display_url
  else d.url

/-- `upload_image_to_imgbb`: returns `(success, direct_url, error_message)`;
a missing file, a raised exception, a non-200 status, or an absent usable
URL field all yield a failure triple; every exception is caught. -/
def upload_image_to_imgbb (env : UploadEnv) (image_path : String) :
    Bool × Option String × Option String :=
  if !env.fileExists then (false, none, some ("Archivo no encontrado: " ++ image_path))
  else match env.http with
    | .raises msg => (false, none, some msg)
    | .response status text data =>
      if status != 200 then (false, none, some ("HTTP " ++ toString status ++ ": " ++ text))
      else match data with
        | none => (false, none, some "Respuesta de imgbb sin URL usable")
        | some d =>
          if pyTruthy (priorityUrl d) then (true, priorityUrl d, none)
          else (false, none, some "Respuesta de imgbb sin URL usable")

/-- `os.path.basename`: the part after the last path separator. -/
def baseName (p : String) : String := (p.splitOn "/").getLastD p

/-- `os.path.splitext(...)[0]`: drop the part after the last dot. -/
def splitextStem (s : String) : String :=
  match s.splitOn "." with
  | [] => s
  | [x] => x
  | xs => String.intercalate "." xs.dropLast

/-- The per-file upload name of `upload_images_to_imgbb`:
`f"(name_prefix)_(base)_(ts)_(idx)"` when a name prefix is given. -/
def uploadName (namePre : Option String) (ts : Nat) (idx : Nat) (p : String) : Option String :=
  namePre.map (fun pre =>
    pre ++ "_" ++ splitextStem (baseName p) ++ "_" ++ toString ts ++ "_" ++ toString idx)

/-- Trace of one `upload_images_to_imgbb` call: the paths for which an
upload was attempted, in order, and the URLs of the successful uploads. -/
structure BatchTrace where
  attempted : List String
  urls : List String
deriving Repr, DecidableEq

/-- The loop body of `upload_images_to_imgbb`: `one` is the behaviour of
`upload_image_to_imgbb` for a given path and optional name; a URL is kept
only when the call succeeded and the URL is truthy (`if ok and url`). -/
def uploadGo (one : String → Option String → Bool × Option String × Option String)
    (namePre : Option String) (ts : Nat) : List String → Nat → BatchTrace
  | [], _ => ⟨[], []⟩
  | p :: rest, idx =>
    let r := one p (uploadName namePre ts idx p)
    let tail := uploadGo one namePre ts rest (idx + 1)
    ⟨p :: tail.attempted,
     if r.1 && pyTruthy r.2.1 then r.2.1.getD "" :: tail.urls else tail.urls⟩

/-- `upload_images_to_imgbb`: iterate over `image_paths[:max_count]` with a
1-based index, uploading each and collecting successful URLs in order. -/
def upload_images_to_imgbb
    (one : String → Option String → Bool × Option String × Option String)
    (image_paths : List String) (namePre : Option String) (ts : Nat)
    (max_count : Nat) : BatchTrace :=
  uploadGo one namePre ts (image_paths.take max_count) 1

/-! Graph collection and message formatting, from
`src/utils/whatsapp_sender.py`. -/

/-- The fixed `mapping` list of `_get_graphs_in_order`. -/
def graphMapping : List (String × String) :=
  [("Resumen del Dashboard", "dashboard_summary.png"),
   ("Tendencia Mensual", "monthly_sales_trend.png"),
   ("Ventas por Segmento", "sales_by_segment.png"),
   ("Ventas por Canal", "sales_by_channel.png"),
   ("Top Modelos", "top_models.png"),
   ("Ventas por Sede", "sales_by_headquarter.png")]

/-- `os.path.join` on two components. -/
def joinPath (dir fname : String) : String := dir ++ "/" ++ fname

/-- `WhatsAppSender._get_graphs_in_order`: walk the canonical mapping in
order and keep the `(title, path)` pairs whose file exists. -/
def get_graphs_in_order (isFile : String → Bool) (graphs_dir : String) :
    List (String × String) :=
  graphMapping.filterMap (fun tf =>
    if isFile (joinPath graphs_dir tf.2) then some (tf.1, joinPath graphs_dir tf.2)
    else none)

/-- Insert a comma after every third character, counting from position
`i`, over a digit list given least-significant first. -/
def groupDigitsGo : List Char → Nat → List Char
  | [], _ => []
  | c :: rest, i =>
    c :: ((if i % 3 = 0 && !rest.isEmpty then [','] else []) ++ groupDigitsGo rest (i + 1))

/-- Group a decimal digit string in threes from the right with commas. -/
def groupDigits (s : String) : String :=
  String.mk (groupDigitsGo s.toList.reverse 1).reverse

/-- Python `f"(n):,"` on an integer: thousands separators. -/
def formatComma (n : Int) : String :=
  if n < 0 then "-" ++ groupDigits (toString n.natAbs)
  else groupDigits (toString n.natAbs)

/-- Python `f"(n):,.2f"` on an integer value: thousands separators and two
decimal places. -/
def formatMoney2 (n : Int) : String := formatComma n ++ ".00"

/-- The `summary_metrics` table of a result bundle (integer-valued). -/
structure SummaryMetrics where
  unique_clients : Int
  total_sales : Int
  total_sales_without_igv : Int
  total_sales_with_igv : Int
  total_igv_collected : Int
  average_sales_without_igv : Int

/-- The result bundle consumed by `_format_summary`: each table is `none`
when the key is missing from the dict (a lookup then raises `KeyError`);
a series is its list of `(label, value)` entries in iteration order. -/
structure ReportResults where
  summary_metrics : Option SummaryMetrics
  top_models : Option (List (String × Int))
  sales_by_headquarter : Option (List (String × Int))
  sales_by_channel : Option (List (String × Int))

/-- The `num_emoji` lookup of the top-5 loop. -/
def numEmoji : Nat → String
  | 1 => "1️⃣"
  | 2 => "2️⃣"
  | 3 => "3️⃣"
  | 4 => "4️⃣"
  | 5 => "5️⃣"
  | i => toString i ++ "."

/-- The top-5 models loop of `_format_summary`: enumerate from 1 and stop
after the fifth appended line. -/
def top5Lines (entries : List (String × Int)) : List String :=
  ((List.enumFrom 1 entries).take 5).map
    (fun e => numEmoji e.1 ++ " " ++ e.2.1 ++ ": $" ++ formatMoney2 e.2.2)

/-- The `lines` list built by `_format_summary` on well-formed input. -/
def format_summary_lines (m : SummaryMetrics) (tm hqs chs : List (String × Int))
    (today : String) : List String :=
  ["📊 Reporte de análisis de ventas",
   "👥 Clientes únicos: " ++ formatComma m.unique_clients,
   "🧾 Total de ventas: " ++ formatComma m.total_sales,
   "💵 Ventas sin IGV: $" ++ formatMoney2 m.total_sales_without_igv,
   "💰 Ventas con IGV: $" ++ formatMoney2 m.total_sales_with_igv,
   "🧮 IGV recaudado: $" ++ formatMoney2 m.total_igv_collected,
   "📈 Venta promedio: $" ++ formatMoney2 m.average_sales_without_igv,
   "",
   "🏆 Modelo más vendido: " ++ (tm.headD ("", 0)).1,
   "📍 Sede con más ventas: " ++ (hqs.headD ("", 0)).1,
   "📣 Canal con más ventas: " ++ (chs.headD ("", 0)).1,
   "",
   "📍 Ventas por sede:"]
  ++ hqs.map (fun e => "• 🏢 " ++ e.1 ++ ": $" ++ formatMoney2 e.2)
  ++ ["", "🔝 Top 5 modelos:"]
  ++ top5Lines tm
  ++ ["", "🗓️ Generado: " ++ today]

/-- `WhatsAppSender._format_summary`: any missing table (a `KeyError`) or
empty series (an `IndexError` on `.index[0]`) is caught by the enclosing
`except` and yields the fixed error string; otherwise the joined lines. -/
def format_summary (results : ReportResults) (today : String) : String :=
  match results.summary_metrics, results.top_models,
      results.sales_by_headquarter, results.sales_by_channel with
  | some m, some tm, some hqs, some chs =>
    if tm.isEmpty || hqs.isEmpty || chs.isEmpty then "Error formateando resumen."
    else String.intercalate "\n" (format_summary_lines m tm hqs chs today)
  | _, _, _, _ => "Error formateando resumen."

/-! Full-report orchestration, from `src/utils/whatsapp_sender.py`. -/

/-- Environment of a `send_full_report` call: the `IMGBB_API_KEY` value
(already stripped), whether `outputs/graphs` is a directory, which files
exist, the per-path outcome of an imgbb upload (`some url` on success),
and the timestamp used in upload names. -/
structure Env where
  imgbb_key : String
  graphs_isdir : Bool
  isFile : String → Bool
  upload : String → Option String
  ts : Nat

/-- The behaviour of `upload_image_to_imgbb` induced by an `Env`. -/
def envOne (env : Env) : String → Option String → Bool × Option String × Option String :=
  fun p _nm => match env.upload p with
    | some u => (true, some u, none)
    | none => (false, none, some "upload failed")

/-- `os.path.join('outputs', 'graphs')`. -/
def graphsDir : String := "outputs/graphs"

/-- The numbered link list appended to the message:
`f"(idx). (title): (url)\n"` over `zip(graph_title_and_paths, urls)`
enumerated from 1. -/
def linksBlock (gtp : List (String × String)) (urls : List String) : String :=
  String.join ((List.enumFrom 1 (gtp.zip urls)).map
    (fun e => toString e.1 ++ ". " ++ e.2.1.1 ++ ": " ++ e.2.2 ++ "\n"))

/-- Trace of one `simulate_send_with_graph_urls` call: the boolean result,
the message written to `outputs/simulation_log.txt` and
`outputs/simulation_message.txt`, and the upload attempts performed. -/
structure SimTrace where
  result : Bool
  written : Option String
  uploadsAttempted : List String
deriving Repr, DecidableEq

/-- `WhatsAppSender.simulate_send_with_graph_urls`: collect the graphs in
canonical order, upload them all when an imgbb key is configured and any
graph exists, then append to the base message the online-links section, or
the local-paths section, or the no-graphs note, and write the result to
both simulation files. -/
def simulate_send_with_graph_urls (env : Env) (base_message : String) : SimTrace :=
  let gtp := get_graphs_in_order env.isFile graphsDir
  let graph_files := gtp.map Prod.snd
  let bt : BatchTrace :=
    if env.imgbb_key != "" && !graph_files.isEmpty then
      upload_images_to_imgbb (envOne env) graph_files (some "carbiz-report") env.ts
        graph_files.length
    else ⟨[], []⟩
  let message :=
    if !bt.urls.isEmpty then
      base_message ++ "\n\n🖼️ Gráficos en línea (simulado):\n" ++ linksBlock gtp bt.urls
    else if !graph_files.isEmpty then
      base_message ++ "\n\n🗂️ Gráficos locales (simulado):\n"
        ++ String.intercalate "\n" graph_files
    else
      base_message ++ "\n\n⚠️ No se encontraron gráficos para adjuntar."
  ⟨true, some message, bt.attempted⟩

/-- Trace of the message-composition phase of `send_full_report`: the
composed message and the upload attempts it performed. -/
structure ComposeTrace where
  message : String
  uploadsAttempted : List String
deriving Repr, DecidableEq

/-- The message-composition phase of `send_full_report`: format the
summary; when an imgbb key is configured and the graphs directory exists,
upload every collected graph and, if any succeeded, append the numbered
online-links section (nothing when none succeeded); otherwise append the
fixed local-storage note. -/
def composeReportMessage (env : Env) (results : ReportResults) (today : String) :
    ComposeTrace :=
  let base := format_summary results today
  if env.imgbb_key != "" && env.graphs_isdir then
    let gtp := get_graphs_in_order env.isFile graphsDir
    let ordered := gtp.map Prod.snd
    let bt := upload_images_to_imgbb (envOne env) ordered (some "carbiz-report") env.ts
      ordered.length
    if !bt.urls.isEmpty then
      ⟨base ++ "\n\n🖼️ Gráficos en línea:\n" ++ linksBlock gtp bt.urls, bt.attempted⟩
    else ⟨base, bt.attempted⟩
  else
    ⟨base ++ "\n\n🖼️ Los gráficos del análisis se guardaron en la carpeta outputs/graphs.",
     []⟩

/-- Trace of one `send_full_report` call: the boolean result, transport
attempts and waits, the message written to the simulation files (when
any), and the upload attempts performed. -/
structure FullTrace where
  result : Bool
  attempts : Nat
  waits : Nat
  written : Option String
  uploadsAttempted : List String
deriving Repr, DecidableEq

/-- `WhatsAppSender.send_full_report`: resolve the destination (empty
resolution returns `False` with nothing done), compose the message,
resolve the simulate flag (the argument overrides the configured default),
then either write the simulation record, or send via the retry loop and,
on a rate-limit signal, fall back to the simulation record. -/
def send_full_report (cfg : Config) (env : Env) (transport : Nat → AttemptOutcome)
    (results : ReportResults) (destiny : Option String) (simulateArg : Option Bool)
    (today : String) : FullTrace :=
  if resolveDestiny cfg destiny = "" then ⟨false, 0, 0, none, []⟩
  else
    let ct := composeReportMessage env results today
    if resolveSimulate cfg simulateArg then
      let st := simulate_send_with_graph_urls env ct.message
      ⟨st.result, 0, 0, st.written, ct.uploadsAttempted ++ st.uploadsAttempted⟩
    else
      let tr := sendLoop transport cfg.max_retries 0
      match tr.result with
      | .ok b => ⟨b, tr.attempts, tr.waits, none, ct.uploadsAttempted⟩
      | .rateLimited =>
        let st := simulate_send_with_graph_urls env ct.message
        ⟨st.result, tr.attempts, tr.waits, st.written, ct.uploadsAttempted ++ st.uploadsAttempted⟩

lemma sendLoop_all_fail (transport : Nat → AttemptOutcome) :
    ∀ rem idx, (∀ k, idx ≤ k → k < idx + rem → genericFail (transport k)) →
      sendLoop transport rem idx = ⟨.ok false, rem, rem - 1⟩ := by
  intro rem
  induction rem with
  | zero => intro idx _; simp [sendLoop]
  | succ n ih =>
    intro idx hfail
    have h0 : genericFail (transport idx) := hfail idx le_rfl (by omega)
    have hrest : sendLoop transport n (idx + 1) = ⟨.ok false, n, n - 1⟩ :=
      ih (idx + 1) (fun k hk1 hk2 => hfail k (by omega) (by omega))
    rcases h0 with h | h <;>
      · simp only [sendLoop, h, hrest]
        rcases Nat.eq_zero_or_pos n with hn | hn
        · subst hn; simp
        · simp [hn, Nat.sub_add_cancel hn]

lemma sendLoop_rateLimit (transport : Nat → AttemptOutcome) :
    ∀ rem idx i, idx ≤ i → i < idx + rem →
      transport i = .raisesRateLimit →
      (∀ j, idx ≤ j → j < i → genericFail (transport j)) →
      sendLoop transport rem idx = ⟨.rateLimited, i - idx + 1, i - idx⟩ := by
  intro rem
  induction rem with
  | zero => intro idx i h1 h2; omega
  | succ n ih =>
    intro idx i h1 h2 hrl hpre
    rcases Nat.eq_or_lt_of_le h1 with heq | hlt
    · subst heq
      simp [sendLoop, hrl]
    · have hfirst : genericFail (transport idx) := hpre idx le_rfl hlt
      have hn : 0 < n := by omega
      have hrest := ih (idx + 1) i (by omega) (by omega) hrl
        (fun j hj1 hj2 => hpre j (by omega) hj2)
      rcases hfirst with h | h <;>
        · simp only [sendLoop, h, hrest, hn, if_pos]
          simp only [SendTrace.mk.injEq]
          exact ⟨trivial, by omega, by omega⟩

end CarBiz

/-- C1: for every `max_retries = N ≥ 1` and a transport whose every attempt
either returns failure or raises a non-rate-limit exception,
`send_message` with `retry = True` makes exactly N attempts, sleeps
`wait_time` exactly N - 1 times (after every failed attempt but the last),
and returns `False`. -/
theorem C1_sendWithRetry_all_fail (cfg : CarBiz.Config)
    (transport : Nat → CarBiz.AttemptOutcome) (d : String)
    (hN : 1 ≤ cfg.max_retries) (hd : d ≠ "")
    (hfail : ∀ k, k < cfg.max_retries → CarBiz.genericFail (transport k)) :
    CarBiz.send_message cfg transport (some d) true =
      ⟨.ok false, cfg.max_retries, cfg.max_retries - 1⟩ := by
  have h := CarBiz.sendLoop_all_fail transport cfg.max_retries 0
    (fun k _ hk => hfail k (by omega))
  simp [CarBiz.send_message, CarBiz.resolveDestiny, hd, h]

/-- Witness for C1 at `N = 3`, `d = "+100"`, an always-failing transport. -/
theorem C1_witness :
    CarBiz.send_message ⟨"", 3, 5, false⟩ (fun _ => .returnsFalse) (some "+100") true =
      ⟨.ok false, 3, 2⟩ :=
  C1_sendWithRetry_all_fail ⟨"", 3, 5, false⟩ (fun _ => .returnsFalse) "+100"
    (by decide) (by decide) (fun k _ => Or.inl rfl)

/-- C2: if the k-th transport attempt (1-based, k within the retry bound,
earlier attempts failing generically so the loop reaches it) raises the
rate-limit signal, `send_message` performs exactly k attempts and k - 1
waits (none after attempt k) and re-raises the signal; and
`send_twilio_message` raises that signal exactly when the Twilio error
carries code 63038 or the daily-limit marker in its text. -/
theorem C2_rateLimit_stops_retries (cfg : CarBiz.Config)
    (transport : Nat → CarBiz.AttemptOutcome) (d : String) (k : Nat)
    (hk1 : 1 ≤ k) (hk2 : k ≤ cfg.max_retries) (hd : d ≠ "")
    (hrl : transport (k - 1) = .raisesRateLimit)
    (hpre : ∀ j, j < k - 1 → CarBiz.genericFail (transport j)) :
    CarBiz.send_message cfg transport (some d) true = ⟨.rateLimited, k, k - 1⟩
    ∧ (∀ code text, (code = some 63038 ∨ CarBiz.containsDailyMarker text) →
        CarBiz.classifyTwilio true (.restError code text) = .raisesRateLimit) := by
  constructor
  · have h := CarBiz.sendLoop_rateLimit transport cfg.max_retries 0 (k - 1)
      (by omega) (by omega) hrl (fun j _ hj => hpre j hj)
    have hkk : k - 1 - 0 + 1 = k := by omega
    have hkk2 : k - 1 - 0 = k - 1 := by omega
    rw [hkk, hkk2] at h
    simp [CarBiz.send_message, CarBiz.resolveDestiny, hd, h]
  · intro code text hcode
    simp [CarBiz.classifyTwilio, hcode]

/-- Witness for C2 at `k = 2`, `max_retries = 3`: attempt 1 fails
generically, attempt 2 raises the rate-limit signal. -/
theorem C2_witness :
    CarBiz.send_message ⟨"", 3, 5, false⟩
      (fun i => if i = 0 then .returnsFalse else .raisesRateLimit) (some "+100") true =
      ⟨.rateLimited, 2, 1⟩ :=
  (C2_rateLimit_stops_retries ⟨"", 3, 5, false⟩
    (fun i => if i = 0 then .returnsFalse else .raisesRateLimit) "+100" 2
    (by decide) (by decide) (by decide) (by decide)
    (fun j hj => by interval_cases j <;> exact Or.inl rfl)).1

/-- C4: when no explicit destination is given (absent or empty argument)
and the configured default destination is empty, `send_full_report`
returns `False` immediately: zero transport attempts, zero waits, no
simulation file written, no upload attempted. -/
theorem C4_missing_destination (cfg : CarBiz.Config) (env : CarBiz.Env)
    (transport : Nat → CarBiz.AttemptOutcome) (results : CarBiz.ReportResults)
    (destiny : Option String) (simulateArg : Option Bool) (today : String)
    (hcfg : cfg.destination_whatsapp = "")
    (hdest : destiny = none ∨ destiny = some "") :
    CarBiz.send_full_report cfg env transport results destiny simulateArg today =
      ⟨false, 0, 0, none, []⟩ := by
  rcases hdest with h | h <;> subst h <;>
    simp [CarBiz.send_full_report, CarBiz.resolveDestiny, hcfg]

/-- Witness for C4: empty configured destination, absent argument. -/
theorem C4_witness :
    CarBiz.send_full_report ⟨"", 3, 5, false⟩ ⟨"", false, fun _ => false, fun _ => none, 0⟩
      (fun _ => .returnsFalse) ⟨none, none, none, none⟩ none none "t" =
      ⟨false, 0, 0, none, []⟩ :=
  C4_missing_destination ⟨"", 3, 5, false⟩ ⟨"", false, fun _ => false, fun _ => none, 0⟩
    (fun _ => .returnsFalse) ⟨none, none, none, none⟩ none none "t" rfl (Or.inl rfl)

/-- C7: `upload_image_to_imgbb` always returns a `(success, url, error)`
triple (it is a total function of its environment — every exception is
caught); a missing file, a raised call, a non-200 status, an absent `data`
object, or no truthy URL field each yield a failure triple with no URL;
and on success the URL is the fixed priority choice `data.image.url`, then
`data.display_url`, then `data.url`. -/
theorem C7_uploadOne_contract (env : CarBiz.UploadEnv) (p : String) :
    (env.fileExists = false → (CarBiz.upload_image_to_imgbb env p).1 = false
      ∧ (CarBiz.upload_image_to_imgbb env p).2.1 = none)
    ∧ (∀ m, env.http = .raises m → (CarBiz.upload_image_to_imgbb env p).1 = false
        ∧ (CarBiz.upload_image_to_imgbb env p).2.1 = none)
    ∧ (∀ st t d, env.http = .response st t d → st ≠ 200 →
        (CarBiz.upload_image_to_imgbb env p).1 = false
        ∧ (CarBiz.upload_image_to_imgbb env p).2.1 = none)
    ∧ (∀ t, env.http = .response 200 t none →
        (CarBiz.upload_image_to_imgbb env p).1 = false
        ∧ (CarBiz.upload_image_to_imgbb env p).2.1 = none)
    ∧ (∀ t d, env.http = .response 200 t (some d) →
        CarBiz.pyTruthy (CarBiz.priorityUrl d) = false →
        (CarBiz.upload_image_to_imgbb env p).1 = false
        ∧ (CarBiz.upload_image_to_imgbb env p).2.1 = none)
    ∧ (∀ t d, env.fileExists = true → env.http = .response 200 t (some d) →
        CarBiz.pyTruthy (CarBiz.priorityUrl d) = true →
        CarBiz.upload_image_to_imgbb env p = (true, CarBiz.priorityUrl d, none)) := by
  obtain ⟨fe, http⟩ := env
  refine ⟨?_, ?_, ?_, ?_, ?_, ?_⟩
  · intro h; subst h; simp [CarBiz.upload_image_to_imgbb]
  · intro m h; subst h; cases fe <;> simp [CarBiz.upload_image_to_imgbb]
  · intro st t d h hst; subst h; cases fe <;>
      simp [CarBiz.upload_image_to_imgbb, hst]
  · intro t h; subst h; cases fe <;> simp [CarBiz.upload_image_to_imgbb]
  · intro t d h hu; subst h; cases fe <;>
      simp [CarBiz.upload_image_to_imgbb, hu]
  · intro t d hfe h hu; subst hfe; subst h
    simp [CarBiz.upload_image_to_imgbb, hu]

/-- Witness for C7: a successful upload whose response carries only a
nested `image.url` field. -/
theorem C7_witness :
    CarBiz.upload_image_to_imgbb
      ⟨true, .response 200 "ok" (some ⟨some "https://i.ibb.co/x/a.png", none, none⟩)⟩
      "outputs/graphs/top_models.png" =
      (true, some "https://i.ibb.co/x/a.png", none) := by
  have h := (C7_uploadOne_contract
    ⟨true, .response 200 "ok" (some ⟨some "https://i.ibb.co/x/a.png", none, none⟩)⟩
    "outputs/graphs/top_models.png").2.2.2.2.2
    "ok" ⟨some "https://i.ibb.co/x/a.png", none, none⟩ rfl rfl (by decide)
  simpa using h

namespace CarBiz

lemma uploadGo_spec (one : String → Option String → Bool × Option String × Option String)
    (namePre : Option String) (ts : Nat) :
    ∀ (l : List String) (i : Nat),
      (uploadGo one namePre ts l i).attempted = l
      ∧ (uploadGo one namePre ts l i).urls =
        (List.enumFrom i l).filterMap (fun e =>
          if (one e.2 (uploadName namePre ts e.1 e.2)).1
              && pyTruthy (one e.2 (uploadName namePre ts e.1 e.2)).2.1
          then some ((one e.2 (uploadName namePre ts e.1 e.2)).2.1.getD "")
          else none) := by
  intro l
  induction l with
  | nil => intro i; simp [uploadGo]
  | cons p rest ih =>
    intro i
    have h := ih (i + 1)
    constructor
    · simp [uploadGo, h.1]
    · simp only [uploadGo, List.enumFrom, List.filterMap_cons, h.2]
      cases hc : (one p (uploadName namePre ts i p)).1
          && pyTruthy (one p (uploadName namePre ts i p)).2.1 <;>
        simp [hc]

end CarBiz

/-- C6: `upload_images_to_imgbb` attempts uploads exactly for the first
`max_count` paths in the given order, and its result keeps the URLs of the
successful uploads only, in input order, with no placeholder for failures;
in particular 5 valid paths with `max_count = 3` where only the 2nd upload
fails yield exactly the first and third URLs. -/
theorem C6_uploadMany_spec :
    (∀ (one : String → Option String → Bool × Option String × Option String)
        (paths : List String) (namePre : Option String) (ts mc : Nat),
      (CarBiz.upload_images_to_imgbb one paths namePre ts mc).attempted = paths.take mc
      ∧ (CarBiz.upload_images_to_imgbb one paths namePre ts mc).urls =
        (List.enumFrom 1 (paths.take mc)).filterMap (fun e =>
          if (one e.2 (CarBiz.uploadName namePre ts e.1 e.2)).1
              && CarBiz.pyTruthy (one e.2 (CarBiz.uploadName namePre ts e.1 e.2)).2.1
          then some ((one e.2 (CarBiz.uploadName namePre ts e.1 e.2)).2.1.getD "")
          else none))
    ∧ CarBiz.upload_images_to_imgbb
        (fun p _nm => if p = "p2" then (false, none, some "boom")
          else (true, some ("url-" ++ p), none))
        ["p1", "p2", "p3", "p4", "p5"] none 0 3 =
      ⟨["p1", "p2", "p3"], ["url-p1", "url-p3"]⟩ := by
  constructor
  · intro one paths namePre ts mc
    exact CarBiz.uploadGo_spec one namePre ts (paths.take mc) 1
  · decide

/-- C5 counterexample: for a graphs directory containing exactly
`top_models.png` and `sales_by_channel.png`, `_get_graphs_in_order`
returns Ventas por Canal (canonical position 4) BEFORE Top Modelos
(canonical position 5); the claimed order (Top Modelos first) is false. -/
theorem C5_counterexample :
    CarBiz.get_graphs_in_order
      (fun p => p == "outputs/graphs/top_models.png"
        || p == "outputs/graphs/sales_by_channel.png")
      "outputs/graphs" =
      [("Ventas por Canal", "outputs/graphs/sales_by_channel.png"),
       ("Top Modelos", "outputs/graphs/top_models.png")]
    ∧ (CarBiz.get_graphs_in_order
        (fun p => p == "outputs/graphs/top_models.png"
          || p == "outputs/graphs/sales_by_channel.png")
        "outputs/graphs").map Prod.fst ≠ ["Top Modelos", "Ventas por Canal"] := by
  constructor
  · decide
  · decide

/-- C5 amended: for a graphs directory in which, of the six canonical
files, exactly `top_models.png` and `sales_by_channel.png` exist,
`_get_graphs_in_order` returns exactly two references, Ventas por Canal
before Top Modelos (canonical positions 4 then 5), and none of the other
four canonical titles appear. -/
theorem C5_amended_canonical_order (isFile : String → Bool) (dir : String)
    (h1 : isFile (CarBiz.joinPath dir "top_models.png") = true)
    (h2 : isFile (CarBiz.joinPath dir "sales_by_channel.png") = true)
    (h3 : isFile (CarBiz.joinPath dir "dashboard_summary.png") = false)
    (h4 : isFile (CarBiz.joinPath dir "monthly_sales_trend.png") = false)
    (h5 : isFile (CarBiz.joinPath dir "sales_by_segment.png") = false)
    (h6 : isFile (CarBiz.joinPath dir "sales_by_headquarter.png") = false) :
    CarBiz.get_graphs_in_order isFile dir =
      [("Ventas por Canal", CarBiz.joinPath dir "sales_by_channel.png"),
       ("Top Modelos", CarBiz.joinPath dir "top_models.png")] := by
  simp [CarBiz.get_graphs_in_order, CarBiz.graphMapping, h1, h2, h3, h4, h5, h6]

/-- Witness for the amended C5 at a concrete directory and predicate. -/
theorem C5_amended_witness :
    CarBiz.get_graphs_in_order
      (fun p => p == "g/top_models.png" || p == "g/sales_by_channel.png") "g" =
      [("Ventas por Canal", "g/sales_by_channel.png"),
       ("Top Modelos", "g/top_models.png")] :=
  C5_amended_canonical_order
    (fun p => p == "g/top_models.png" || p == "g/sales_by_channel.png") "g"
    (by decide) (by decide) (by decide) (by decide) (by decide) (by decide)

/-- C8: `_format_summary` is total (every exception is caught); a result
missing the `summary_metrics` table yields the fixed literal error string;
a well-formed result yields the fixed multi-section text, whose lines
include the unique-clients value formatted with thousands separators. -/
theorem C8_composeSummary_contract (r : CarBiz.ReportResults) (today : String) :
    (r.summary_metrics = none →
      CarBiz.format_summary r today = "Error formateando resumen.")
    ∧ (∀ m tm hqs chs,
        r = ⟨some m, some tm, some hqs, some chs⟩ →
        tm ≠ [] → hqs ≠ [] → chs ≠ [] →
        CarBiz.format_summary r today =
          String.intercalate "\n" (CarBiz.format_summary_lines m tm hqs chs today)
        ∧ ("👥 Clientes únicos: " ++ CarBiz.formatComma m.unique_clients)
            ∈ CarBiz.format_summary_lines m tm hqs chs today) := by
  constructor
  · intro h
    obtain ⟨sm, tms, hqss, chss⟩ := r
    simp only at h
    subst h
    rfl
  · intro m tm hqs chs hr htm hhqs hchs
    subst hr
    constructor
    · have e1 : tm.isEmpty = false := by simpa using htm
      have e2 : hqs.isEmpty = false := by simpa using hhqs
      have e3 : chs.isEmpty = false := by simpa using hchs
      simp [CarBiz.format_summary, e1, e2, e3]
    · simp [CarBiz.format_summary_lines]

/-- Witness for C8: the error string on a result with no tables, and the
line `👥 Clientes únicos: 42` present for a result whose
`unique_clients` is 42. -/
theorem C8_witness :
    CarBiz.format_summary ⟨none, none, none, none⟩ "2024-01-01 00:00:00" =
      "Error formateando resumen."
    ∧ "👥 Clientes únicos: 42" ∈
      CarBiz.format_summary_lines ⟨42, 7, 10, 12, 2, 1⟩ [("Corolla", 5)]
        [("Lima", 9)] [("Online", 4)] "2024-01-01 00:00:00" := by
  constructor
  · exact (C8_composeSummary_contract ⟨none, none, none, none⟩ "2024-01-01 00:00:00").1 rfl
  · have h := ((C8_composeSummary_contract
      ⟨some ⟨42, 7, 10, 12, 2, 1⟩, some [("Corolla", 5)], some [("Lima", 9)],
        some [("Online", 4)]⟩ "2024-01-01 00:00:00").2
      ⟨42, 7, 10, 12, 2, 1⟩ [("Corolla", 5)] [("Lima", 9)] [("Online", 4)]
      rfl (by decide) (by decide) (by decide)).2
    simpa using h

namespace CarBiz

lemma uploadGo_all_success (env : Env) (u : String → String)
    (namePre : Option String) (ts : Nat) :
    ∀ (l : List String) (i : Nat),
      (∀ p ∈ l, env.upload p = some (u p) ∧ u p ≠ "") →
      uploadGo (envOne env) namePre ts l i = ⟨l, l.map u⟩ := by
  intro l
  induction l with
  | nil => intro i _; simp [uploadGo]
  | cons p rest ih =>
    intro i h
    have hp := h p (List.mem_cons_self p rest)
    have hrest := ih (i + 1) (fun q hq => h q (List.mem_cons_of_mem p hq))
    simp only [uploadGo, hrest]
    simp [envOne, hp.1, pyTruthy, hp.2]

lemma upload_all_success (env : Env) (u : String → String)
    (namePre : Option String) (ts : Nat) (paths : List String)
    (h : ∀ p ∈ paths, env.upload p = some (u p) ∧ u p ≠ "") :
    upload_images_to_imgbb (envOne env) paths namePre ts paths.length =
      ⟨paths, paths.map u⟩ := by
  rw [upload_images_to_imgbb, List.take_length]
  exact uploadGo_all_success env u namePre ts paths 1 h

end CarBiz

/-- C3: in live (non-simulated) mode, when the retrying send raises the
rate-limit signal, `send_full_report` does not propagate it: it writes the
composed message to the simulation record through
`simulate_send_with_graph_urls` and returns that call's boolean outcome;
the simulation record is always written on this path. -/
theorem C3_rateLimit_degrades_to_simulation (cfg : CarBiz.Config) (env : CarBiz.Env)
    (transport : Nat → CarBiz.AttemptOutcome) (results : CarBiz.ReportResults)
    (destiny : Option String) (simulateArg : Option Bool) (today : String)
    (hd : CarBiz.resolveDestiny cfg destiny ≠ "")
    (hsim : CarBiz.resolveSimulate cfg simulateArg = false)
    (hrl : (CarBiz.sendLoop transport cfg.max_retries 0).result = .rateLimited) :
    CarBiz.send_full_report cfg env transport results destiny simulateArg today =
      ⟨(CarBiz.simulate_send_with_graph_urls env
          (CarBiz.composeReportMessage env results today).message).result,
       (CarBiz.sendLoop transport cfg.max_retries 0).attempts,
       (CarBiz.sendLoop transport cfg.max_retries 0).waits,
       (CarBiz.simulate_send_with_graph_urls env
          (CarBiz.composeReportMessage env results today).message).written,
       (CarBiz.composeReportMessage env results today).uploadsAttempted
         ++ (CarBiz.simulate_send_with_graph_urls env
              (CarBiz.composeReportMessage env results today).message).uploadsAttempted⟩
    ∧ (CarBiz.simulate_send_with_graph_urls env
        (CarBiz.composeReportMessage env results today).message).written ≠ none := by
  constructor
  · simp [CarBiz.send_full_report, hd, hsim, hrl]
  · simp [CarBiz.simulate_send_with_graph_urls]

/-- Witness for C3: one rate-limited attempt, no graphs, no imgbb key. -/
theorem C3_witness :
    CarBiz.send_full_report ⟨"", 1, 0, false⟩
      ⟨"", false, fun _ => false, fun _ => none, 0⟩
      (fun _ => .raisesRateLimit) ⟨none, none, none, none⟩ (some "+1") none "t" =
      ⟨true, 1, 0,
       some ("Error formateando resumen.\n\n🖼️ Los gráficos del análisis se guardaron en la carpeta outputs/graphs.\n\n⚠️ No se encontraron gráficos para adjuntar."),
       []⟩ := by
  have h := (C3_rateLimit_degrades_to_simulation ⟨"", 1, 0, false⟩
    ⟨"", false, fun _ => false, fun _ => none, 0⟩ (fun _ => .raisesRateLimit)
    ⟨none, none, none, none⟩ (some "+1") none "t" (by decide) rfl rfl).1
  rw [h]
  decide

/-- C9: in simulated mode with no imgbb key configured and, among the
canonical graph files, exactly `top_models.png` and `sales_by_channel.png`
existing, the message written to the simulation record is the composed
text followed by the local-files fallback section listing exactly those
two paths (in canonical order: channel, then top models); no online-URL
section is appended anywhere (the only graph sections are the fixed
local-storage note and the local-files list), and no upload is
attempted. -/
theorem C9_simulated_no_key_local_files (cfg : CarBiz.Config) (env : CarBiz.Env)
    (transport : Nat → CarBiz.AttemptOutcome) (results : CarBiz.ReportResults)
    (destiny : Option String) (simulateArg : Option Bool) (today : String)
    (hd : CarBiz.resolveDestiny cfg destiny ≠ "")
    (hsim : CarBiz.resolveSimulate cfg simulateArg = true)
    (hkey : env.imgbb_key = "")
    (h1 : env.isFile (CarBiz.joinPath CarBiz.graphsDir "top_models.png") = true)
    (h2 : env.isFile (CarBiz.joinPath CarBiz.graphsDir "sales_by_channel.png") = true)
    (h3 : env.isFile (CarBiz.joinPath CarBiz.graphsDir "dashboard_summary.png") = false)
    (h4 : env.isFile (CarBiz.joinPath CarBiz.graphsDir "monthly_sales_trend.png") = false)
    (h5 : env.isFile (CarBiz.joinPath CarBiz.graphsDir "sales_by_segment.png") = false)
    (h6 : env.isFile (CarBiz.joinPath CarBiz.graphsDir "sales_by_headquarter.png") = false) :
    CarBiz.send_full_report cfg env transport results destiny simulateArg today =
      ⟨true, 0, 0,
       some (CarBiz.format_summary results today
         ++ "\n\n🖼️ Los gráficos del análisis se guardaron en la carpeta outputs/graphs."
         ++ "\n\n🗂️ Gráficos locales (simulado):\n"
         ++ String.intercalate "\n"
             [CarBiz.joinPath CarBiz.graphsDir "sales_by_channel.png",
              CarBiz.joinPath CarBiz.graphsDir "top_models.png"]),
       []⟩ := by
  simp [CarBiz.send_full_report, CarBiz.composeReportMessage,
    CarBiz.simulate_send_with_graph_urls, CarBiz.get_graphs_in_order,
    CarBiz.graphMapping, hd, hsim, hkey, h1, h2, h3, h4, h5, h6,
    String.append_assoc]

/-- Witness for C9 at a concrete configuration and environment. -/
theorem C9_witness :
    CarBiz.send_full_report ⟨"+1", 3, 5, true⟩
      ⟨"", true,
       (fun p => p == "outputs/graphs/top_models.png"
         || p == "outputs/graphs/sales_by_channel.png"),
       fun _ => none, 0⟩
      (fun _ => .returnsFalse) ⟨none, none, none, none⟩ none none "t" =
      ⟨true, 0, 0,
       some ("Error formateando resumen.\n\n🖼️ Los gráficos del análisis se guardaron en la carpeta outputs/graphs.\n\n🗂️ Gráficos locales (simulado):\noutputs/graphs/sales_by_channel.png\noutputs/graphs/top_models.png"),
       []⟩ := by
  have h := C9_simulated_no_key_local_files ⟨"+1", 3, 5, true⟩
    ⟨"", true,
     (fun p => p == "outputs/graphs/top_models.png"
       || p == "outputs/graphs/sales_by_channel.png"),
     fun _ => none, 0⟩
    (fun _ => .returnsFalse) ⟨none, none, none, none⟩ none none "t"
    (by decide) rfl rfl (by decide) (by decide) (by decide) (by decide)
    (by decide) (by decide)
  rw [h]
  rfl

/-- C10 (implicit): in simulated mode with an imgbb key configured, the
graphs directory existing and nonempty, and every upload succeeding with a
truthy URL, each graph file is uploaded twice — once during
`send_full_report`'s message composition and once again inside
`simulate_send_with_graph_urls` — and the written message carries both
numbered link sections (the online one and the simulated one), each built
from the full title list zipped with one URL per graph. -/
theorem C10_simulated_with_key_double_upload (cfg : CarBiz.Config) (env : CarBiz.Env)
    (transport : Nat → CarBiz.AttemptOutcome) (results : CarBiz.ReportResults)
    (destiny : Option String) (simulateArg : Option Bool) (today : String)
    (u : String → String)
    (hd : CarBiz.resolveDestiny cfg destiny ≠ "")
    (hsim : CarBiz.resolveSimulate cfg simulateArg = true)
    (hkey : env.imgbb_key ≠ "")
    (hdir : env.graphs_isdir = true)
    (hne : CarBiz.get_graphs_in_order env.isFile CarBiz.graphsDir ≠ [])
    (hup : ∀ p ∈ (CarBiz.get_graphs_in_order env.isFile CarBiz.graphsDir).map Prod.snd,
        env.upload p = some (u p) ∧ u p ≠ "") :
    CarBiz.send_full_report cfg env transport results destiny simulateArg today =
      ⟨true, 0, 0,
       some (CarBiz.format_summary results today
         ++ "\n\n🖼️ Gráficos en línea:\n"
         ++ CarBiz.linksBlock (CarBiz.get_graphs_in_order env.isFile CarBiz.graphsDir)
              (((CarBiz.get_graphs_in_order env.isFile CarBiz.graphsDir).map Prod.snd).map u)
         ++ "\n\n🖼️ Gráficos en línea (simulado):\n"
         ++ CarBiz.linksBlock (CarBiz.get_graphs_in_order env.isFile CarBiz.graphsDir)
              (((CarBiz.get_graphs_in_order env.isFile CarBiz.graphsDir).map Prod.snd).map u)),
       ((CarBiz.get_graphs_in_order env.isFile CarBiz.graphsDir).map Prod.snd)
         ++ (CarBiz.get_graphs_in_order env.isFile CarBiz.graphsDir).map Prod.snd⟩
    ∧ (((CarBiz.get_graphs_in_order env.isFile CarBiz.graphsDir).map Prod.snd).map u).length
        = (CarBiz.get_graphs_in_order env.isFile CarBiz.graphsDir).length := by
  have hbatch := CarBiz.upload_all_success env u (some "carbiz-report") env.ts
    ((CarBiz.get_graphs_in_order env.isFile CarBiz.graphsDir).map Prod.snd) hup
  rw [List.length_map] at hbatch
  have hpne : (CarBiz.get_graphs_in_order env.isFile CarBiz.graphsDir).map Prod.snd ≠ [] := by
    simpa using hne
  have hune : ((CarBiz.get_graphs_in_order env.isFile CarBiz.graphsDir).map Prod.snd).map u
      ≠ [] := by simpa using hne
  constructor
  · simp [CarBiz.send_full_report, CarBiz.composeReportMessage,
      CarBiz.simulate_send_with_graph_urls, hd, hsim, hkey, hdir, hbatch,
      hne, hpne, hune, String.append_assoc]
  · simp

/-- Witness for C10: one existing graph, every upload succeeding; the
single path appears twice in the upload-attempt trace and once in each of
the two numbered link sections. -/
theorem C10_witness :
    CarBiz.send_full_report ⟨"+1", 3, 5, true⟩
      ⟨"KEY", true, (fun p => p == "outputs/graphs/top_models.png"),
       (fun p => some ("http://u/" ++ p)), 7⟩
      (fun _ => .returnsFalse) ⟨none, none, none, none⟩ none none "t" =
      ⟨true, 0, 0,
       some ("Error formateando resumen.\n\n🖼️ Gráficos en línea:\n1. Top Modelos: http://u/outputs/graphs/top_models.png\n\n\n🖼️ Gráficos en línea (simulado):\n1. Top Modelos: http://u/outputs/graphs/top_models.png\n"),
       ["outputs/graphs/top_models.png", "outputs/graphs/top_models.png"]⟩ := by
  have h := (C10_simulated_with_key_double_upload ⟨"+1", 3, 5, true⟩
    ⟨"KEY", true, (fun p => p == "outputs/graphs/top_models.png"),
     (fun p => some ("http://u/" ++ p)), 7⟩
    (fun _ => .returnsFalse) ⟨none, none, none, none⟩ none none "t"
    (fun p => "http://u/" ++ p)
    (by decide) rfl (by decide) rfl (by decide) (by decide)).1
  rw [h]
  rfl
